import Mathlib

/-!
# Verification of the PodGoImg image pipeline (src/main.go)

Shallow embedding of the bounded-concurrency image pipeline:

* the pure per-task pipeline `downloadImage` / `resizeImage` / `saveImage`
  and the goroutine body spawned in `main` (src/main.go lines 68-94),
  modelled as Lean functions parametric over an environment `Env` that
  supplies the outcomes of the external collaborators (`http.Get`,
  `io.ReadAll`, `image.Decode`, `resize.Resize`, `os.Create`,
  `jpeg.Encode`);
* the dispatcher / semaphore / wait-group concurrency skeleton of `main`
  (src/main.go lines 51-103), modelled as a small-step transition system
  over an explicit machine state.
-/

namespace PodGoImg

/-- The pool size of the admission semaphore:
`sem := make(chan struct{}, 10)` (src/main.go line 52). -/
def poolSize : Nat := 10

/-- One catalog record, projected to the two fields the program reads
(src/main.go lines 55-58): `PodlistUrl` (output-file identifier) and
`Image` (image locator URL). -/
structure Podcast where
  podlistUrl : String
  image : String
deriving DecidableEq, Repr

/-- Resampling filters of the `nfnt/resize` library; the program uses
`resize.Lanczos3` (src/main.go line 125). -/
inductive Filter where
  | nearestNeighbor
  | bilinear
  | bicubic
  | mitchellNetravali
  | lanczos2
  | lanczos3
deriving DecidableEq, Repr

/-- An HTTP response as the task observes it: the status code and the
result of `io.ReadAll(resp.Body)` (which may itself fail). -/
structure HTTPResponse where
  statusCode : Nat
  body : Except String (List Nat)

/-- The external collaborators of one task, as opaque functions.  `Img` is
the abstract type of decoded in-memory images (`image.Image`). -/
structure Env (Img : Type) where
  /-- `http.Get url` : either a transport error or a response. -/
  httpGet : String → Except String HTTPResponse
  /-- `image.Decode` on the downloaded bytes. -/
  imageDecode : List Nat → Except String Img
  /-- `resize.Resize width height img filter` — total, never errors. -/
  resizeResize : Nat → Nat → Img → Filter → Img
  /-- Whether `os.Create path` fails, and with which error. -/
  createErr : String → Option String
  /-- `jpeg.Encode` of an image at a quality setting: the encoded bytes
  or an error. -/
  jpegEncode : Img → Nat → Except String (List Nat)

/-- The local filesystem, as an association list from paths to file
contents; the head entry shadows older entries for the same path. -/
abbrev FS := List (String × List Nat)

/-- Look up the current content of `path` (first match wins). -/
def fsLookup (fs : FS) (path : String) : Option (List Nat) :=
  match fs with
  | [] => none
  | (p, d) :: rest => if p = path then some d else fsLookup rest path

/-- Write `data` to `path`, replacing any previous content. -/
def fsInsert (fs : FS) (path : String) (data : List Nat) : FS :=
  (path, data) :: fs

/-- `filepath.Join dir name` for clean relative components:
`dir ++ "/" ++ name`. -/
def filepathJoin (dir name : String) : String :=
  dir ++ "/" ++ name

/-- `downloadImage` (src/main.go lines 105-122): `http.Get` the URL, read
the whole body, `image.Decode` the bytes.  Note that the response's
`statusCode` is never inspected. -/
def downloadImage {Img : Type} (env : Env Img) (url : String) :
    Except String Img :=
  match env.httpGet url with
  | .error e => .error ("failed to get image: " ++ e)
  | .ok resp =>
    match resp.body with
    | .error e => .error ("failed to read image data: " ++ e)
    | .ok imgData =>
      match env.imageDecode imgData with
      | .error e => .error ("failed to decode image: " ++ e)
      | .ok img => .ok img

/-- `resizeImage` (src/main.go lines 124-126):
`return resize.Resize(width, height, img, resize.Lanczos3), nil` —
the error component is always `nil`. -/
def resizeImage {Img : Type} (env : Env Img) (img : Img)
    (width height : Nat) : Except String Img :=
  .ok (env.resizeResize width height img Filter.lanczos3)

/-- `saveImage` (src/main.go lines 128-137): `os.Create path` (truncating
to an empty file), then `jpeg.Encode` at quality 75 into the created
file.  Returns the error of the failing step together with the resulting
filesystem: when `jpeg.Encode` fails the created file is left behind. -/
def saveImage {Img : Type} (env : Env Img) (fs : FS) (img : Img)
    (path : String) : Except String Unit × FS :=
  match env.createErr path with
  | some e => (.error ("failed to create file: " ++ e), fs)
  | none =>
    let fs1 := fsInsert fs path []
    match env.jpegEncode img 75 with
    | .error e => (.error e, fs1)
    | .ok data => (.ok (), fsInsert fs1 path data)

/-- Log lines a task can emit (src/main.go lines 78, 85, 92). -/
inductive TaskLog where
  | downloadFailed (url : String)
  | resizeFailed
  | saveFailed
deriving DecidableEq, Repr

/-- Outcome of one task body: which deferred cleanups ran, whether the
task succeeded, the resulting filesystem, and the log lines it emitted. -/
structure TaskResult where
  /-- the deferred `<-sem` (src/main.go line 73) ran. -/
  tokenReleased : Bool
  /-- the deferred `wg.Done()` (src/main.go line 72) ran. -/
  wgDone : Bool
  /-- the task reached the end of the save step without error. -/
  succeeded : Bool
  fs : FS
  logs : List TaskLog

/-- The goroutine body spawned for one record (src/main.go lines 68-94):
download, resize to 800x800, save to `img/<PodlistUrl>.jpg`; the two
`defer`s at the top run on every exit path, so `tokenReleased` and
`wgDone` are set on all branches. -/
def taskBody {Img : Type} (env : Env Img) (fs : FS) (p : Podcast) :
    TaskResult :=
  match downloadImage env p.image with
  | .error _ =>
    { tokenReleased := true, wgDone := true, succeeded := false,
      fs := fs, logs := [TaskLog.downloadFailed p.image] }
  | .ok imageData =>
    match resizeImage env imageData 800 800 with
    | .error _ =>
      { tokenReleased := true, wgDone := true, succeeded := false,
        fs := fs, logs := [TaskLog.resizeFailed] }
    | .ok resizedImg =>
      match saveImage env fs resizedImg
          (filepathJoin "img" (p.podlistUrl ++ ".jpg")) with
      | (.error _, fs2) =>
        { tokenReleased := true, wgDone := true, succeeded := false,
          fs := fs2, logs := [TaskLog.saveFailed] }
      | (.ok _, fs2) =>
        { tokenReleased := true, wgDone := true, succeeded := true,
          fs := fs2, logs := [] }

/-!
## The dispatcher / semaphore / wait-group skeleton of `main`

`main` (src/main.go lines 51-103) iterates the catalog cursor; for each
document that decodes it does `wg.Add(1)`, acquires a semaphore token
(`sem <- struct{}{}`, capacity 10) and spawns the goroutine; documents
that fail to decode are logged and skipped.  After the loop, `cur.Err()`
is checked — a cursor error is `log.Fatalf`, which exits the process at
once — otherwise `wg.Wait()` blocks until every `wg.Done` has run and a
fixed summary line is printed.

We model this as a small-step transition system: the main goroutine's
program counter plus the shared counters (semaphore occupancy, wait-group
counter) and ghost counters of spawned/finished tasks.  Spawned task
bodies are abstracted to a single `task_finish` event carrying their
success/failure outcome, since a task touches the shared state only
through its deferred token release and `wg.Done()`.
-/

/-- One item yielded by the catalog cursor: either a record that decoded,
or a per-item decode failure (`cur.Decode` error, src/main.go line 60). -/
inductive CatalogItem where
  | record (p : Podcast)
  | decodeErr
deriving DecidableEq, Repr

/-- Log lines of the main goroutine (src/main.go lines 62, 78/85/92 via a
task, 98). -/
inductive LogMsg where
  | decodeFailed
  | taskFailed
  | cursorError
deriving DecidableEq, Repr

/-- Program counter of the main goroutine. -/
inductive Pc where
  /-- at the top of the `cur.Next` loop (src/main.go line 54). -/
  | iterating
  /-- after `wg.Add(1)` for record `p`, before acquiring a token
  (src/main.go line 66). -/
  | added (p : Podcast)
  /-- holding a token for record `p`, before `go func` (src/main.go
  line 67). -/
  | acquired (p : Podcast)
  /-- loop finished, at the `cur.Err()` check (src/main.go line 97). -/
  | checkErr
  /-- blocked in `wg.Wait()` (src/main.go line 101). -/
  | waiting
  /-- summary printed, process exited 0 (src/main.go lines 102-103). -/
  | exitedOk
  /-- `log.Fatalf("Cursor error ...")` exited the process (src/main.go
  line 98). -/
  | exitedFatal
deriving DecidableEq, Repr

/-- Parameters of one run: the semaphore capacity, the sequence of items
the cursor yields, and whether the cursor ends with a fatal error. -/
structure RunCfg where
  cap : Nat
  items : List CatalogItem
  curErr : Bool

/-- The machine state: main-goroutine pc, remaining cursor items, shared
semaphore occupancy `sem` and wait-group counter `wgCount`, ghost counts
of running and finished tasks, the log, and the process's stdout line and
exit code (once set). -/
structure MState where
  pc : Pc
  items : List CatalogItem
  sem : Nat
  wgCount : Nat
  running : Nat
  done : Nat
  spawned : Nat
  logs : List LogMsg
  output : Option String
  exitCode : Option Nat
deriving DecidableEq, Repr

/-- The initial state: at the top of the loop, nothing acquired. -/
def initState (cfg : RunCfg) : MState :=
  { pc := Pc.iterating, items := cfg.items, sem := 0, wgCount := 0,
    running := 0, done := 0, spawned := 0, logs := [], output := none,
    exitCode := none }

/-- One interleaved step of the system.  Main-goroutine steps follow the
source line by line; `task_finish` is the terminal event of one spawned
goroutine (its deferred `<-sem` and `wg.Done()`), possible whenever a
task is running and the process has not been killed by `log.Fatalf`. -/
inductive Step (cfg : RunCfg) : MState → MState → Prop where
  /-- `cur.Decode` fails: log and `continue` (src/main.go lines 60-64). -/
  | next_skip {s : MState} {rest : List CatalogItem}
      (h1 : s.pc = Pc.iterating) (h2 : s.items = CatalogItem.decodeErr :: rest) :
      Step cfg s { s with items := rest, logs := LogMsg.decodeFailed :: s.logs }
  /-- `cur.Next` yields a record that decodes; `wg.Add(1)`
  (src/main.go lines 54-66). -/
  | next_record {s : MState} {p : Podcast} {rest : List CatalogItem}
      (h1 : s.pc = Pc.iterating) (h2 : s.items = CatalogItem.record p :: rest) :
      Step cfg s { s with pc := Pc.added p, items := rest,
                          wgCount := s.wgCount + 1 }
  /-- `sem <- struct{}{}` succeeds only while the buffer has room
  (src/main.go line 67). -/
  | acquire {s : MState} {p : Podcast}
      (h1 : s.pc = Pc.added p) (h2 : s.sem < cfg.cap) :
      Step cfg s { s with pc := Pc.acquired p, sem := s.sem + 1 }
  /-- `go func(podcast)` starts the task (src/main.go line 68). -/
  | spawn {s : MState} {p : Podcast}
      (h1 : s.pc = Pc.acquired p) :
      Step cfg s { s with pc := Pc.iterating, running := s.running + 1,
                          spawned := s.spawned + 1 }
  /-- A running task reaches the end of its body: deferred `<-sem` and
  `wg.Done()` run (src/main.go lines 72-73); a failed task has logged its
  error.  Impossible once `log.Fatalf` killed the process. -/
  | task_finish {s : MState} {r : Nat} (failed : Bool)
      (h1 : s.running = r + 1) (h2 : s.pc ≠ Pc.exitedFatal) :
      Step cfg s { s with running := r, done := s.done + 1,
                          sem := s.sem - 1, wgCount := s.wgCount - 1,
                          logs := if failed then LogMsg.taskFailed :: s.logs
                                  else s.logs }
  /-- `cur.Next` returns false: leave the loop (src/main.go line 54). -/
  | loop_end {s : MState}
      (h1 : s.pc = Pc.iterating) (h2 : s.items = []) :
      Step cfg s { s with pc := Pc.checkErr }
  /-- `cur.Err() != nil`: `log.Fatalf` exits the whole process with code 1
  without running `wg.Wait()` (src/main.go lines 97-99). -/
  | cursor_fatal {s : MState}
      (h1 : s.pc = Pc.checkErr) (h2 : cfg.curErr = true) :
      Step cfg s { s with pc := Pc.exitedFatal, exitCode := some 1,
                          logs := LogMsg.cursorError :: s.logs }
  /-- `cur.Err() == nil`: proceed to `wg.Wait()` (src/main.go line 101). -/
  | cursor_ok {s : MState}
      (h1 : s.pc = Pc.checkErr) (h2 : cfg.curErr = false) :
      Step cfg s { s with pc := Pc.waiting }
  /-- `wg.Wait()` returns once the wait-group counter is zero; the fixed
  summary is printed and the process exits 0 (src/main.go lines 101-103). -/
  | wait_return {s : MState}
      (h1 : s.pc = Pc.waiting) (h2 : s.wgCount = 0) :
      Step cfg s { s with pc := Pc.exitedOk,
                          output := some "All images processed.",
                          exitCode := some 0 }

/-- States reachable from the initial state of a run. -/
inductive Reachable (cfg : RunCfg) : MState → Prop where
  | init : Reachable cfg (initState cfg)
  | step {s s' : MState} (h : Reachable cfg s) (hs : Step cfg s s') :
      Reachable cfg s'

/-- Semaphore slots held by the main goroutine itself (between acquiring
a token and handing it to the spawned task). -/
def pendSem : Pc → Nat
  | Pc.acquired _ => 1
  | _ => 0

/-- Wait-group units registered by the main goroutine for a task it has
not yet spawned. -/
def pendWg : Pc → Nat
  | Pc.added _ => 1
  | Pc.acquired _ => 1
  | _ => 0

/-- Number of `record` items in a list of catalog items. -/
def recordCount : List CatalogItem → Nat
  | [] => 0
  | CatalogItem.record _ :: rest => recordCount rest + 1
  | CatalogItem.decodeErr :: rest => recordCount rest

/-- Number of `decodeErr` items in a list of catalog items. -/
def errCount : List CatalogItem → Nat
  | [] => 0
  | CatalogItem.record _ :: rest => errCount rest
  | CatalogItem.decodeErr :: rest => errCount rest + 1

/-- Number of per-item decode-failure log lines. -/
def countDecodeLogs : List LogMsg → Nat
  | [] => 0
  | LogMsg.decodeFailed :: rest => countDecodeLogs rest + 1
  | LogMsg.taskFailed :: rest => countDecodeLogs rest
  | LogMsg.cursorError :: rest => countDecodeLogs rest

/-- Number of task-failure log lines. -/
def countTaskFailLogs : List LogMsg → Nat
  | [] => 0
  | LogMsg.taskFailed :: rest => countTaskFailLogs rest + 1
  | LogMsg.decodeFailed :: rest => countTaskFailLogs rest
  | LogMsg.cursorError :: rest => countTaskFailLogs rest

/-- The inductive invariant of the system: the semaphore occupancy counts
exactly the running tasks (plus the slot the dispatcher holds mid-spawn)
and never exceeds the capacity; the wait-group counter counts the
unfinished registered tasks; tasks are spawned exactly for the record
items consumed; decode errors are logged one-for-one; the fatal exit only
follows a cursor error; and the ok exit has printed the fixed summary. -/
def Inv (cfg : RunCfg) (s : MState) : Prop :=
  s.sem = s.running + pendSem s.pc ∧
  s.sem ≤ cfg.cap ∧
  s.wgCount = s.running + pendWg s.pc ∧
  s.spawned = s.running + s.done ∧
  ((s.pc = Pc.checkErr ∨ s.pc = Pc.waiting ∨ s.pc = Pc.exitedOk ∨
      s.pc = Pc.exitedFatal) → s.items = []) ∧
  s.spawned + pendWg s.pc + recordCount s.items = recordCount cfg.items ∧
  countDecodeLogs s.logs + errCount s.items = errCount cfg.items ∧
  (s.pc = Pc.exitedFatal → cfg.curErr = true) ∧
  (s.pc = Pc.exitedOk →
    s.wgCount = 0 ∧ s.output = some "All images processed." ∧
    s.exitCode = some 0)

/-!
### Concrete runs and environments used as witnesses and counterexamples
-/

/-- A sample record. -/
def pod : Podcast :=
  { podlistUrl := "p1", image := "http://pics.example/p1.png" }

/-- A run whose single record dispatches and whose cursor then reports a
fatal error while the task is still in flight. -/
def fatalCfg : RunCfg :=
  { cap := 10, items := [CatalogItem.record pod], curErr := true }

/-- The state of `fatalCfg`'s run after dispatching the record and hitting
`log.Fatalf` on the cursor error: the process has exited with code 1 while
one task still runs and holds its token, and no summary was printed. -/
def fatalFinal : MState :=
  { pc := Pc.exitedFatal, items := [], sem := 1, wgCount := 1, running := 1,
    done := 0, spawned := 1, logs := [LogMsg.cursorError], output := none,
    exitCode := some 1 }

/-- A run whose single record dispatches and whose cursor ends cleanly. -/
def okCfg : RunCfg :=
  { cap := 10, items := [CatalogItem.record pod], curErr := false }

/-- Final state of `okCfg`'s run when the task finished as Failed. -/
def okFinalA : MState :=
  { pc := Pc.exitedOk, items := [], sem := 0, wgCount := 0, running := 0,
    done := 1, spawned := 1, logs := [LogMsg.taskFailed],
    output := some "All images processed.", exitCode := some 0 }

/-- Final state of `okCfg`'s run when the task finished as Succeeded. -/
def okFinalB : MState :=
  { pc := Pc.exitedOk, items := [], sem := 0, wgCount := 0, running := 0,
    done := 1, spawned := 1, logs := [],
    output := some "All images processed.", exitCode := some 0 }

/-- A run whose single catalog item fails to decode. -/
def skipCfg : RunCfg :=
  { cap := 10, items := [CatalogItem.decodeErr], curErr := false }

/-- The state of `skipCfg`'s run after skipping the undecodable item. -/
def skipS1 : MState :=
  { pc := Pc.iterating, items := [], sem := 0, wgCount := 0, running := 0,
    done := 0, spawned := 0, logs := [LogMsg.decodeFailed], output := none,
    exitCode := none }

/-- An HTTP response with a non-2xx status whose body decodes as an
image. -/
def png404 : HTTPResponse :=
  { statusCode := 404, body := Except.ok [1, 2, 3] }

/-- Environment in which every fetch returns `png404` and every byte
sequence decodes. -/
def env404 : Env Nat :=
  { httpGet := fun _ => Except.ok png404
    imageDecode := fun _ => Except.ok 7
    resizeResize := fun _ _ img _ => img
    createErr := fun _ => none
    jpegEncode := fun _ _ => Except.ok [] }

/-- Environment in which `http.Get` itself fails. -/
def envDown : Env Nat :=
  { httpGet := fun _ => Except.error "connection refused"
    imageDecode := fun _ => Except.ok 7
    resizeResize := fun _ _ img _ => img
    createErr := fun _ => none
    jpegEncode := fun _ _ => Except.ok [] }

/-- Environment in which the whole pipeline succeeds; resize and encode
are injective enough to observe the arguments they were called with. -/
def envOk : Env Nat :=
  { httpGet := fun _ => Except.ok { statusCode := 200, body := Except.ok [9, 9] }
    imageDecode := fun _ => Except.ok 3
    resizeResize := fun w h img _ => w + h + img
    createErr := fun _ => none
    jpegEncode := fun img q => Except.ok [img, q] }

/-- Environment in which `os.Create` succeeds but `jpeg.Encode` fails. -/
def envEnc : Env Nat :=
  { httpGet := fun _ => Except.ok { statusCode := 200, body := Except.ok [9] }
    imageDecode := fun _ => Except.ok 3
    resizeResize := fun w h img _ => w + h + img
    createErr := fun _ => none
    jpegEncode := fun _ _ => Except.error "disk full" }

theorem inv_init (cfg : RunCfg) : Inv cfg (initState cfg) := by
  simp [Inv, initState, pendSem, pendWg, countDecodeLogs]

theorem inv_step {cfg : RunCfg} {s s' : MState} (hinv : Inv cfg s)
    (hs : Step cfg s s') : Inv cfg s' := by
  obtain ⟨i1, i2, i3, i4, i5, i6, i7, i8, i9⟩ := hinv
  cases hs with
  | next_skip h1 h2 =>
    refine ⟨?_, ?_, ?_, ?_, ?_, ?_, ?_, ?_, ?_⟩ <;>
      simp_all [pendSem, pendWg, recordCount, errCount, countDecodeLogs] <;>
      omega
  | next_record h1 h2 =>
    refine ⟨?_, ?_, ?_, ?_, ?_, ?_, ?_, ?_, ?_⟩ <;>
      simp_all [pendSem, pendWg, recordCount, errCount, countDecodeLogs] <;>
      omega
  | acquire h1 h2 =>
    refine ⟨?_, ?_, ?_, ?_, ?_, ?_, ?_, ?_, ?_⟩ <;>
      simp_all [pendSem, pendWg, recordCount, errCount, countDecodeLogs] <;>
      omega
  | spawn h1 =>
    refine ⟨?_, ?_, ?_, ?_, ?_, ?_, ?_, ?_, ?_⟩ <;>
      simp_all [pendSem, pendWg, recordCount, errCount, countDecodeLogs] <;>
      omega
  | task_finish failed h1 h2 =>
    cases failed <;>
      (refine ⟨?_, ?_, ?_, ?_, ?_, ?_, ?_, ?_, ?_⟩ <;>
        simp_all [pendSem, pendWg, recordCount, errCount, countDecodeLogs] <;>
        omega)
  | loop_end h1 h2 =>
    refine ⟨?_, ?_, ?_, ?_, ?_, ?_, ?_, ?_, ?_⟩ <;>
      simp_all [pendSem, pendWg, recordCount, errCount, countDecodeLogs] <;>
      omega
  | cursor_fatal h1 h2 =>
    refine ⟨?_, ?_, ?_, ?_, ?_, ?_, ?_, ?_, ?_⟩ <;>
      simp_all [pendSem, pendWg, recordCount, errCount, countDecodeLogs] <;>
      omega
  | cursor_ok h1 h2 =>
    refine ⟨?_, ?_, ?_, ?_, ?_, ?_, ?_, ?_, ?_⟩ <;>
      simp_all [pendSem, pendWg, recordCount, errCount, countDecodeLogs] <;>
      omega
  | wait_return h1 h2 =>
    refine ⟨?_, ?_, ?_, ?_, ?_, ?_, ?_, ?_, ?_⟩ <;>
      simp_all [pendSem, pendWg, recordCount, errCount, countDecodeLogs] <;>
      omega

/-- Every reachable state satisfies the invariant. -/
theorem inv_reachable {cfg : RunCfg} {s : MState} (h : Reachable cfg s) :
    Inv cfg s := by
  induction h with
  | init => exact inv_init cfg
  | step _ hs ih => exact inv_step ih hs

/-- The fatal run really reaches `fatalFinal`: dispatch the record, then
hit the cursor error while the task is in flight. -/
theorem fatal_reach : Reachable fatalCfg fatalFinal := by
  have h0 : Reachable fatalCfg (initState fatalCfg) := Reachable.init
  have h1 := h0.step (@Step.next_record fatalCfg (initState fatalCfg) pod [] rfl rfl)
  have h2 := h1.step (@Step.acquire fatalCfg _ pod rfl (by decide))
  have h3 := h2.step (@Step.spawn fatalCfg _ pod rfl)
  have h4 := h3.step (@Step.loop_end fatalCfg _ rfl rfl)
  have h5 := h4.step (@Step.cursor_fatal fatalCfg _ rfl rfl)
  exact h5

/-- The clean run reaches `okFinalA` (its one task fails). -/
theorem ok_reachA : Reachable okCfg okFinalA := by
  have h0 : Reachable okCfg (initState okCfg) := Reachable.init
  have h1 := h0.step (@Step.next_record okCfg (initState okCfg) pod [] rfl rfl)
  have h2 := h1.step (@Step.acquire okCfg _ pod rfl (by decide))
  have h3 := h2.step (@Step.spawn okCfg _ pod rfl)
  have h4 := h3.step (@Step.loop_end okCfg _ rfl rfl)
  have h5 := h4.step (@Step.cursor_ok okCfg _ rfl rfl)
  have h6 := h5.step (@Step.task_finish okCfg _ 0 true rfl (by decide))
  have h7 := h6.step (@Step.wait_return okCfg _ rfl rfl)
  exact h7

/-- The clean run reaches `okFinalB` (its one task succeeds). -/
theorem ok_reachB : Reachable okCfg okFinalB := by
  have h0 : Reachable okCfg (initState okCfg) := Reachable.init
  have h1 := h0.step (@Step.next_record okCfg (initState okCfg) pod [] rfl rfl)
  have h2 := h1.step (@Step.acquire okCfg _ pod rfl (by decide))
  have h3 := h2.step (@Step.spawn okCfg _ pod rfl)
  have h4 := h3.step (@Step.loop_end okCfg _ rfl rfl)
  have h5 := h4.step (@Step.cursor_ok okCfg _ rfl rfl)
  have h6 := h5.step (@Step.task_finish okCfg _ 0 false rfl (by decide))
  have h7 := h6.step (@Step.wait_return okCfg _ rfl rfl)
  exact h7

/-- The skip run reaches `skipS1` in one step. -/
theorem skip_reach : Reachable skipCfg skipS1 := by
  have h0 : Reachable skipCfg (initState skipCfg) := Reachable.init
  have h1 := h0.step (@Step.next_skip skipCfg (initState skipCfg) [] rfl rfl)
  exact h1

/-!
## The claims
-/

/-- C1: in every run with the code's pool size 10, at any instant the
number of tasks in the executing state never exceeds 10; indeed the
semaphore occupancy itself (tokens held by executing tasks plus the one
the dispatcher may hold mid-spawn) never exceeds 10. -/
theorem concurrency_bound (cfg : RunCfg) (s : MState)
    (hcap : cfg.cap = poolSize) (h : Reachable cfg s) :
    s.running ≤ poolSize ∧ s.sem ≤ poolSize := by
  obtain ⟨i1, i2, -⟩ := inv_reachable h
  rw [hcap] at i2
  constructor <;> omega

theorem concurrency_bound_witness :
    fatalFinal.running ≤ poolSize ∧ fatalFinal.sem ≤ poolSize :=
  concurrency_bound fatalCfg fatalFinal rfl fatal_reach

/-- C2: when `wg.Wait()` has returned (state `exitedOk`), every
registered task has reached a terminal state (`done = spawned`, none
running, wait-group counter zero), the dispatcher had already consumed
the whole record sequence and registered a task for every record that
decoded, and whenever the barrier is waiting with counter zero it
returns (no missed wakeup). -/
theorem wait_after_all_done (cfg : RunCfg) (s : MState)
    (h : Reachable cfg s) :
    (s.pc = Pc.exitedOk →
      s.done = s.spawned ∧ s.running = 0 ∧ s.wgCount = 0 ∧ s.items = [] ∧
      s.spawned = recordCount cfg.items) ∧
    (s.pc = Pc.waiting → s.items = [] ∧ s.spawned + s.running - s.running =
      recordCount cfg.items) ∧
    (s.pc = Pc.waiting → s.wgCount = 0 →
      ∃ s2, Step cfg s s2 ∧ s2.pc = Pc.exitedOk) := by
  obtain ⟨i1, i2, i3, i4, i5, i6, i7, i8, i9⟩ := inv_reachable h
  refine ⟨?_, ?_, ?_⟩
  · intro hpc
    obtain ⟨hw, -, -⟩ := i9 hpc
    have hp : pendWg s.pc = 0 := by rw [hpc]; rfl
    have hi : s.items = [] := i5 (Or.inr (Or.inr (Or.inl hpc)))
    have hrc : recordCount s.items = 0 := by rw [hi]; rfl
    refine ⟨by omega, by omega, hw, hi, by omega⟩
  · intro hpc
    have hp : pendWg s.pc = 0 := by rw [hpc]; rfl
    have hi : s.items = [] := i5 (Or.inr (Or.inl hpc))
    have hrc : recordCount s.items = 0 := by rw [hi]; rfl
    exact ⟨hi, by omega⟩
  · intro hpc hw
    exact ⟨_, Step.wait_return hpc hw, rfl⟩

theorem wait_after_all_done_witness :
    okFinalB.done = okFinalB.spawned ∧ okFinalB.running = 0 ∧
    okFinalB.wgCount = 0 ∧ okFinalB.items = [] ∧
    okFinalB.spawned = recordCount okCfg.items :=
  (wait_after_all_done okCfg okFinalB ok_reachB).1 rfl

/-- C3 counterexample: the claim that in-flight tasks are still allowed
to finish via the Completion Barrier before the process exits is false:
in the run `fatalCfg` the process reaches the fatal exit (`log.Fatalf`
on the cursor error, exit code 1) while one dispatched task is still
running, no task has completed, and no summary was printed — a silent
partial state. -/
theorem fatal_inflight_cex :
    Reachable fatalCfg fatalFinal ∧ fatalFinal.pc = Pc.exitedFatal ∧
    fatalFinal.running = 1 ∧ fatalFinal.done = 0 ∧
    fatalFinal.output = none ∧ fatalFinal.exitCode = some 1 :=
  ⟨fatal_reach, rfl, rfl, rfl, rfl, rfl⟩

/-- C3 amended: on a fatal cursor error the process exits immediately
via `log.Fatalf` without waiting on the Completion Barrier: a fatal exit
state only arises from a cursor error, and from it no further step — in
particular no completion of an in-flight task — is possible. -/
theorem fatal_no_drain (cfg : RunCfg) (s : MState) (h : Reachable cfg s)
    (hpc : s.pc = Pc.exitedFatal) :
    cfg.curErr = true ∧ ∀ s2, ¬ Step cfg s s2 := by
  obtain ⟨-, -, -, -, -, -, -, i8, -⟩ := inv_reachable h
  refine ⟨i8 hpc, ?_⟩
  intro s2 hs
  cases hs <;> simp_all

theorem fatal_no_drain_witness : fatalCfg.curErr = true :=
  (fatal_no_drain fatalCfg fatalFinal fatal_reach rfl).1

/-- C4 counterexample: the claim that every non-2xx response makes the
Download step fail is false: in `env404` the fetch returns status 404
with a body that decodes, and `downloadImage` accepts it — the status
code is never inspected (src/main.go lines 105-122 contain no check of
`resp.StatusCode`). -/
theorem download_accepts_non2xx_cex :
    env404.httpGet "http://pics.example/gone.png" = Except.ok png404 ∧
    png404.statusCode = 404 ∧
    ¬(200 ≤ png404.statusCode ∧ png404.statusCode < 300) ∧
    png404.body = Except.ok [1, 2, 3] ∧
    downloadImage env404 "http://pics.example/gone.png" = Except.ok 7 :=
  ⟨rfl, rfl, by decide, rfl, rfl⟩

/-- C4 amended: `downloadImage` never inspects the HTTP status code: any
response whose body reads and decodes is accepted, 2xx or not; the
Download step fails only on a transport error, a body-read error, or an
undecodable body. -/
theorem download_status_ignored (Img : Type) (env : Env Img) (url : String)
    (resp : HTTPResponse) (data : List Nat) (img : Img)
    (hg : env.httpGet url = Except.ok resp)
    (hb : resp.body = Except.ok data)
    (hd : env.imageDecode data = Except.ok img) :
    downloadImage env url = Except.ok img := by
  simp [downloadImage, hg, hb, hd]

theorem download_status_ignored_witness :
    downloadImage env404 "http://pics.example/404.png" = Except.ok 7 :=
  download_status_ignored Nat env404 "http://pics.example/404.png" png404
    [1, 2, 3] 7 rfl rfl rfl

/-- C5: per-item decode errors are isolated: every decode error is
logged one-for-one as the items are consumed, tasks are spawned exactly
for the record items (never for a skipped one), a fatal exit only comes
from a cursor error (never from a per-item decode error), and from any
state at the top of the loop with an undecodable item at the head there
is a step that logs it, drops it, and continues iterating with nothing
spawned. -/
theorem decode_error_skipped (cfg : RunCfg) (s : MState)
    (h : Reachable cfg s) :
    countDecodeLogs s.logs + errCount s.items = errCount cfg.items ∧
    s.spawned + pendWg s.pc + recordCount s.items = recordCount cfg.items ∧
    (s.pc = Pc.exitedFatal → cfg.curErr = true) ∧
    (∀ rest, s.pc = Pc.iterating →
      s.items = CatalogItem.decodeErr :: rest →
      ∃ s2, Step cfg s s2 ∧ s2.pc = Pc.iterating ∧ s2.items = rest ∧
        s2.spawned = s.spawned ∧ s2.running = s.running ∧
        s2.wgCount = s.wgCount ∧
        countDecodeLogs s2.logs = countDecodeLogs s.logs + 1) := by
  obtain ⟨i1, i2, i3, i4, i5, i6, i7, i8, i9⟩ := inv_reachable h
  refine ⟨i7, i6, i8, ?_⟩
  intro rest hpc hit
  refine ⟨_, Step.next_skip hpc hit, hpc, rfl, rfl, rfl, rfl, ?_⟩
  simp [countDecodeLogs]

theorem decode_error_skipped_witness :
    countDecodeLogs skipS1.logs + errCount skipS1.items =
      errCount skipCfg.items :=
  (decode_error_skipped skipCfg skipS1 skip_reach).1

/-- C6: a task whose Download step fails writes nothing (the filesystem
is returned unchanged), releases its token and runs `wg.Done` (the two
deferred cleanups), terminates as Failed, and logs the locator. -/
theorem download_fail_isolated (Img : Type) (env : Env Img) (fs : FS)
    (p : Podcast) (e : String)
    (hd : downloadImage env p.image = Except.error e) :
    taskBody env fs p =
      { tokenReleased := true, wgDone := true, succeeded := false,
        fs := fs, logs := [TaskLog.downloadFailed p.image] } := by
  simp [taskBody, hd]

theorem download_fail_isolated_witness :
    taskBody envDown [] pod =
      { tokenReleased := true, wgDone := true, succeeded := false,
        fs := [], logs := [TaskLog.downloadFailed pod.image] } :=
  download_fail_isolated Nat envDown [] pod
    "failed to get image: connection refused" rfl

/-- C7: on the success path the task resizes the downloaded image with
`resize.Resize 800 800 · Lanczos3` (independent width/height targets),
encodes the resized image as JPEG at quality 75, and writes those bytes
to `img/<podlistUrl>.jpg` — for an arbitrary prior filesystem, so an
existing file at that path is overwritten — then terminates as
Succeeded with its token released. -/
theorem success_writes_resized_jpeg (Img : Type) (env : Env Img) (fs : FS)
    (p : Podcast) (img : Img) (data : List Nat)
    (hd : downloadImage env p.image = Except.ok img)
    (hc : env.createErr (filepathJoin "img" (p.podlistUrl ++ ".jpg")) = none)
    (he : env.jpegEncode (env.resizeResize 800 800 img Filter.lanczos3) 75 =
      Except.ok data) :
    (taskBody env fs p).succeeded = true ∧
    (taskBody env fs p).logs = [] ∧
    fsLookup (taskBody env fs p).fs
      (filepathJoin "img" (p.podlistUrl ++ ".jpg")) = some data ∧
    (taskBody env fs p).tokenReleased = true := by
  simp [taskBody, hd, resizeImage, saveImage, hc, he, fsInsert, fsLookup]

theorem success_writes_resized_jpeg_witness :
    fsLookup (taskBody envOk [("img/p1.jpg", [0])] pod).fs
      (filepathJoin "img" (pod.podlistUrl ++ ".jpg")) = some [1603, 75] :=
  (success_writes_resized_jpeg Nat envOk [("img/p1.jpg", [0])] pod 3
    [1603, 75] rfl rfl rfl).2.2.1

/-- C8 counterexample: the claim that after `wait()` the aggregate
Succeeded/Failed counts are available for the summary report is false:
the program keeps no such counts, and two complete runs of the same
catalog — one whose task failed (one task-failure log line), one whose
task succeeded — print the identical fixed summary line and exit with
the identical code 0. -/
theorem summary_outcome_blind_cex :
    Reachable okCfg okFinalA ∧ Reachable okCfg okFinalB ∧
    okFinalA.pc = Pc.exitedOk ∧ okFinalB.pc = Pc.exitedOk ∧
    countTaskFailLogs okFinalA.logs = 1 ∧
    countTaskFailLogs okFinalB.logs = 0 ∧
    okFinalA.output = okFinalB.output ∧
    okFinalA.exitCode = some 0 ∧ okFinalB.exitCode = some 0 :=
  ⟨ok_reachA, ok_reachB, rfl, rfl, rfl, rfl, rfl, rfl, rfl⟩

/-- C8 amended: after `wait()` returns the process prints the fixed
one-line summary "All images processed." and exits 0 regardless of task
outcomes; no non-zero exit code distinguishes partial failure, and no
aggregate Succeeded/Failed counts are maintained or reported. -/
theorem summary_fixed_exit_zero (cfg : RunCfg) (s : MState)
    (h : Reachable cfg s) (hpc : s.pc = Pc.exitedOk) :
    s.output = some "All images processed." ∧ s.exitCode = some 0 := by
  obtain ⟨-, -, -, -, -, -, -, -, i9⟩ := inv_reachable h
  exact ⟨(i9 hpc).2.1, (i9 hpc).2.2⟩

theorem summary_fixed_exit_zero_witness :
    okFinalA.output = some "All images processed." ∧
    okFinalA.exitCode = some 0 :=
  summary_fixed_exit_zero okCfg okFinalA ok_reachA rfl

/-- C9: `resizeImage` always returns a nil error — it is literally
`Except.ok` of the resize result for every input and target — so the
Resize-failure branch of the task body is unreachable and no task ever
logs a resize failure. -/
theorem resize_never_fails :
    (∀ (Img : Type) (env : Env Img) (img : Img) (w h : Nat),
      resizeImage env img w h =
        Except.ok (env.resizeResize w h img Filter.lanczos3)) ∧
    (∀ (Img : Type) (env : Env Img) (fs : FS) (p : Podcast),
      TaskLog.resizeFailed ∉ (taskBody env fs p).logs) := by
  constructor
  · intro Img env img w h
    rfl
  · intro Img env fs p
    unfold taskBody
    cases hd : downloadImage env p.image with
    | error e => simp
    | ok a =>
      simp only [resizeImage]
      cases hs : saveImage env fs (env.resizeResize 800 800 a Filter.lanczos3)
          (filepathJoin "img" (p.podlistUrl ++ ".jpg")) with
      | mk r fs2 => cases r <;> simp

/-- C10: `saveImage` creates (truncates) the output file before
encoding: when `os.Create` succeeds and `jpeg.Encode` then fails, the
call returns the encode error together with a filesystem that still
holds the created file at the output path (here empty), so the
filesystem is not left unchanged. -/
theorem save_partial_file (Img : Type) (env : Env Img) (fs : FS)
    (img : Img) (path : String) (e : String)
    (hc : env.createErr path = none)
    (he : env.jpegEncode img 75 = Except.error e) :
    saveImage env fs img path = (Except.error e, fsInsert fs path []) ∧
    fsLookup (fsInsert fs path []) path = some [] ∧
    (fsLookup fs path = none → fsInsert fs path [] ≠ fs) := by
  refine ⟨by simp [saveImage, hc, he], by simp [fsInsert, fsLookup], ?_⟩
  intro hnone heq
  have hlk := congrArg (fun l => fsLookup l path) heq
  simp [fsInsert, fsLookup, hnone] at hlk

theorem save_partial_file_witness :
    saveImage envEnc ([] : FS) 5 "img/p1.jpg" =
      (Except.error "disk full", fsInsert ([] : FS) "img/p1.jpg" []) :=
  (save_partial_file Nat envEnc ([] : FS) 5 "img/p1.jpg" "disk full"
    rfl rfl).1

end PodGoImg
